import Mathlib

/-!
Shallow embedding of the voting front end (src/vote/app.py).

The module-level configuration (environment reads, Python int parsing),
the identity minting expression hex(random.getrandbits(64))[2:-1], the
lazily cached Redis client accessor get_redis, and the single route
handler hello are translated into executable Lean definitions.  The
external collaborators are modelled at their interfaces: the template
renderer as a record of its arguments, random.getrandbits(64) as an
explicit parameter r < 2^64, json.dumps as an executable printer of a
small JSON value type (matching CPython defaults: ensure_ascii, item
separator comma-space, key separator colon-space), and redis.rpush as a
recorded append attempt whose success or failure is an explicit
parameter.
-/

/-- ASCII whitespace stripped by Python int() (a close model of str.strip). -/
def isPySpace (c : Char) : Bool :=
  c = ' ' || c = '\t' || c = '\n' || c = '\r' || c = '\x0b' || c = '\x0c'

/-- Numeric value of an ASCII decimal digit. -/
def digitVal (c : Char) : Nat := c.toNat - 48

/-- Digits of a Python int literal after the first digit: decimal digits with
single underscores allowed only between digits. -/
def pyIntDigits : Nat → List Char → Option Nat
  | acc, [] => some acc
  | acc, '_' :: c :: rest =>
    if c.isDigit then pyIntDigits (acc * 10 + digitVal c) rest else none
  | _, ['_'] => none
  | acc, c :: rest =>
    if c.isDigit then pyIntDigits (acc * 10 + digitVal c) rest else none

/-- Body of a Python int literal: a nonempty digit sequence. -/
def pyIntBody : List Char → Option Nat
  | [] => none
  | c :: rest => if c.isDigit then pyIntDigits (digitVal c) rest else none

/-- Python int(s) on a decimal string: strip whitespace, optional sign,
nonempty digit run (underscores between digits allowed); none models the
ValueError raised on any other input. -/
def pyInt? (s : String) : Option Int :=
  let cs := ((s.toList.dropWhile isPySpace).reverse.dropWhile isPySpace).reverse
  match cs with
  | '+' :: rest => (pyIntBody rest).map Int.ofNat
  | '-' :: rest => (pyIntBody rest).map (fun n => - Int.ofNat n)
  | rest => (pyIntBody rest).map Int.ofNat

/-- os.getenv with a default value, over an explicit environment. -/
def getenvD (env : List (String × String)) (key dflt : String) : String :=
  ((env.lookup key).getD dflt)

/-- The module-level configuration of app.py, read once at process start. -/
structure Config where
  REDIS_HOST : String
  REDIS_PORT : Int
  REDIS_PASSWORD : Option String
  REDIS_SSL : Bool
  option_a : String
  option_b : String
  hostname : String
deriving DecidableEq, Repr

/-- Module import of app.py: evaluates the top-level configuration
assignments.  int(os.getenv('REDIS_PORT', '6379')) raising ValueError is
modelled by the error branch: the module fails to import, so the WSGI app
object is never created. -/
def startup (env : List (String × String)) (hostname : String) : Except String Config :=
  match pyInt? (getenvD env "REDIS_PORT" "6379") with
  | none => Except.error "ValueError: invalid literal for int"
  | some p =>
    Except.ok
      { REDIS_HOST := getenvD env "REDIS_HOST" "redis"
        REDIS_PORT := p
        REDIS_PASSWORD :=
          match env.lookup "REDIS_PASSWORD" with
          | none => none
          | some s => if s = "" then none else some s
        REDIS_SSL := ["1", "true", "yes"].contains ((getenvD env "REDIS_SSL" "false").toLower)
        option_a := getenvD env "OPTION_A" "Cats"
        option_b := getenvD env "OPTION_B" "Dogs"
        hostname := hostname }

/-- Whether the process gets as far as serving requests: it does exactly
when module import (startup) succeeded. -/
def servesRequests (env : List (String × String)) (hostname : String) : Bool :=
  match startup env hostname with
  | Except.ok _ => true
  | Except.error _ => false

/-- Lowercase hexadecimal digit character, as produced by Python hex(). -/
def hexDigitChar (n : Nat) : Char :=
  if n < 10 then Char.ofNat (48 + n) else Char.ofNat (87 + n)

/-- Accumulator loop producing the hexadecimal digits of n, most
significant first. -/
def hexDigitsAux : Nat → List Char → List Char
  | 0, acc => acc
  | n + 1, acc => hexDigitsAux ((n + 1) / 16) (hexDigitChar ((n + 1) % 16) :: acc)
decreasing_by exact Nat.div_lt_self (Nat.succ_pos n) (by omega)

/-- Hexadecimal digits of n without leading zeros (hex digits of 0 are "0"). -/
def hexDigits (n : Nat) : List Char :=
  if n = 0 then ['0'] else hexDigitsAux n []

/-- Python hex(n) for n >= 0: the prefix 0x followed by lowercase hex digits
without leading zeros. -/
def pyHex (n : Nat) : String := "0x" ++ String.mk (hexDigits n)

/-- Python slice s[2:-1]: characters from index 2 up to, excluding, the last. -/
def pySlice2ToLast (s : String) : String :=
  String.mk ((s.toList.drop 2).dropLast)

/-- Line 46 of app.py: hex(random.getrandbits(64))[2:-1], with the 64-bit
draw made an explicit argument r. -/
def mintToken (r : Nat) : String := pySlice2ToLast (pyHex r)

/-- Lines 44-46 of app.py: read the voter_id cookie; if it is absent or
empty (Python falsy), mint a fresh token from the 64-bit draw. -/
def resolveVoterId (cookieVal : Option String) (r : Nat) : String :=
  match cookieVal with
  | some v => if v = "" then mintToken r else v
  | none => mintToken r

/-- A JSON value as passed to json.dumps (only the shapes the app builds). -/
inductive Json where
  | str : String → Json
  | obj : List (String × Json) → Json

/-- Field access on a decoded JSON object, the way the queue consumer reads
the payload back by field name. -/
def Json.getField : Json → String → Option Json
  | Json.obj fields, k => fields.lookup k
  | Json.str _, _ => none

/-- Four lowercase hex digits, zero padded, as in Python \uXXXX escapes. -/
def hex4 (n : Nat) : String :=
  String.mk [hexDigitChar (n / 4096 % 16), hexDigitChar (n / 256 % 16),
             hexDigitChar (n / 16 % 16), hexDigitChar (n % 16)]

/-- CPython json.encoder escaping of one character under ensure_ascii:
quote and backslash get two-character escapes, the five named control
characters get their shortcuts, other control characters and all
non-ASCII characters become \uXXXX (surrogate pairs above U+FFFF), and
printable ASCII passes through. -/
def escapeChar (c : Char) : String :=
  if c = '"' then "\\\""
  else if c = '\\' then "\\\\"
  else if c = '\n' then "\\n"
  else if c = '\r' then "\\r"
  else if c = '\t' then "\\t"
  else if c = '\x08' then "\\b"
  else if c = '\x0c' then "\\f"
  else if c.toNat < 0x20 then "\\u" ++ hex4 c.toNat
  else if c.toNat < 0x7f then String.mk [c]
  else if c.toNat < 0x10000 then "\\u" ++ hex4 c.toNat
  else
    "\\u" ++ hex4 (0xd800 + (c.toNat - 0x10000) / 0x400) ++
      "\\u" ++ hex4 (0xdc00 + (c.toNat - 0x10000) % 0x400)

/-- Escape every character of a character list for a JSON string literal. -/
def escapeList : List Char → List Char
  | [] => []
  | c :: cs => (escapeChar c).data ++ escapeList cs

/-- Escape every character of a string for a JSON string literal. -/
def escapeString (s : String) : String :=
  String.mk (escapeList s.data)

/-- A JSON string literal: escaped content between double quotes. -/
def quoteString (s : String) : String := "\"" ++ escapeString s ++ "\""

mutual

/-- json.dumps with CPython defaults: item separator comma-space, key
separator colon-space, insertion order of the dict preserved. -/
def Json.dumps : Json → String
  | Json.str s => quoteString s
  | Json.obj fields => "\x7b" ++ dumpsFields fields ++ "\x7d"

/-- The comma-separated field list of a JSON object. -/
def dumpsFields : List (String × Json) → String
  | [] => ""
  | [(k, v)] => quoteString k ++ ": " ++ Json.dumps v
  | (k, v) :: rest => quoteString k ++ ": " ++ Json.dumps v ++ ", " ++ dumpsFields rest

end

/-- Line 53 of app.py: the dict literal passed to json.dumps, with keys
voter_id and vote in that insertion order. -/
def votePayload (voter_id vote : String) : Json :=
  Json.obj [("voter_id", Json.str voter_id), ("vote", Json.str vote)]

/-- Line 53 of app.py: data = json.dumps of the vote dict. -/
def voteData (voter_id vote : String) : String :=
  Json.dumps (votePayload voter_id vote)

/-- Value of one hexadecimal digit character, either case, as read by a
JSON decoder. -/
def hexVal? (c : Char) : Option Nat :=
  if 48 ≤ c.toNat ∧ c.toNat ≤ 57 then some (c.toNat - 48)
  else if 97 ≤ c.toNat ∧ c.toNat ≤ 102 then some (c.toNat - 87)
  else if 65 ≤ c.toNat ∧ c.toNat ≤ 70 then some (c.toNat - 55)
  else none

/-- Combine the four hex digits of a \uXXXX escape into a code unit. -/
def combineHex4 (c1 c2 c3 c4 : Char) : Option Nat :=
  match hexVal? c1, hexVal? c2, hexVal? c3, hexVal? c4 with
  | some v1, some v2, some v3, some v4 => some (v1 * 4096 + v2 * 256 + v3 * 16 + v4)
  | _, _, _, _ => none

mutual

/-- Strict JSON string-content decoder, as json.loads reads the characters
after an opening quote: returns the decoded characters and the input after
the closing quote.  Two-character escapes and \uXXXX escapes (recombining
surrogate pairs) are undone; raw control characters are rejected. -/
def parseJString : List Char → Option (List Char × List Char)
  | [] => none
  | c :: rest =>
    if c = '"' then some ([], rest)
    else if c = '\\' then parseEscape rest
    else if c.toNat < 0x20 then none
    else (parseJString rest).map (fun p => (c :: p.1, p.2))
termination_by l => l.length

/-- Decode what follows a backslash inside a JSON string literal. -/
def parseEscape : List Char → Option (List Char × List Char)
  | [] => none
  | e :: rest =>
    if e = '"' then (parseJString rest).map (fun p => ('"' :: p.1, p.2))
    else if e = '\\' then (parseJString rest).map (fun p => ('\\' :: p.1, p.2))
    else if e = 'n' then (parseJString rest).map (fun p => ('\n' :: p.1, p.2))
    else if e = 'r' then (parseJString rest).map (fun p => ('\r' :: p.1, p.2))
    else if e = 't' then (parseJString rest).map (fun p => ('\t' :: p.1, p.2))
    else if e = 'b' then (parseJString rest).map (fun p => ('\x08' :: p.1, p.2))
    else if e = 'f' then (parseJString rest).map (fun p => ('\x0c' :: p.1, p.2))
    else if e = '/' then (parseJString rest).map (fun p => ('/' :: p.1, p.2))
    else if e = 'u' then parseUnicode rest
    else none
termination_by l => l.length

/-- Decode the four hex digits of a \uXXXX escape and, for a high
surrogate, the paired low surrogate escape that must follow. -/
def parseUnicode : List Char → Option (List Char × List Char)
  | c1 :: c2 :: c3 :: c4 :: tail =>
    match combineHex4 c1 c2 c3 c4 with
    | none => none
    | some n =>
      if n < 0xd800 then (parseJString tail).map (fun p => (Char.ofNat n :: p.1, p.2))
      else if n < 0xdc00 then parseLowSurrogate n tail
      else if n < 0xe000 then none
      else (parseJString tail).map (fun p => (Char.ofNat n :: p.1, p.2))
  | _ => none
termination_by l => l.length

/-- Decode the \uXXXX low-surrogate escape following a high surrogate n
and recombine the pair into one code point. -/
def parseLowSurrogate : Nat → List Char → Option (List Char × List Char)
  | n, b1 :: b2 :: d1 :: d2 :: d3 :: d4 :: tail2 =>
    if b1 = '\\' ∧ b2 = 'u' then
      match combineHex4 d1 d2 d3 d4 with
      | none => none
      | some m =>
        if 0xdc00 ≤ m ∧ m < 0xe000 then
          (parseJString tail2).map (fun p =>
            (Char.ofNat (0x10000 + (n - 0xd800) * 0x400 + (m - 0xdc00)) :: p.1, p.2))
        else none
    else none
  | _, _ => none
termination_by _ l => l.length

end

/-- How the queue consumer decodes a payload off the votes queue: parse the
exact wire format json.dumps produced for the two-field dict — opening
brace, the voter_id field, comma-space, the vote field, closing brace —
and return the decoded voter_id and vote values. -/
def parseVoteData (s : String) : Option (String × String) :=
  match s.data with
  | '\x7b' :: '"' :: r1 =>
    match parseJString r1 with
    | some (k1, ':' :: ' ' :: '"' :: r2) =>
      match parseJString r2 with
      | some (v1, ',' :: ' ' :: '"' :: r3) =>
        match parseJString r3 with
        | some (k2, ':' :: ' ' :: '"' :: r4) =>
          match parseJString r4 with
          | some (v2, ['\x7d']) =>
            if k1 = "voter_id".data ∧ k2 = "vote".data then
              some (String.mk v1, String.mk v2)
            else none
          | _ => none
        | _ => none
      | _ => none
    | _ => none
  | _ => none

/-- The Redis client as constructed by get_redis: host, port, db 0,
socket_timeout 5, password only when configured, ssl only when configured. -/
structure RedisClient where
  host : String
  port : Int
  db : Nat
  socket_timeout : Nat
  password : Option String
  ssl : Bool
deriving DecidableEq, Repr

/-- Lines 27-38 of app.py: the keyword arguments of the Redis constructor.
startup already normalised REDIS_PASSWORD to none when falsy, so the
conditional key insertion is the identity on that field; ssl defaults to
false and is set true exactly when REDIS_SSL. -/
def mkRedisClient (cfg : Config) : RedisClient :=
  { host := cfg.REDIS_HOST
    port := cfg.REDIS_PORT
    db := 0
    socket_timeout := 5
    password := cfg.REDIS_PASSWORD
    ssl := cfg.REDIS_SSL }

/-- The flask.g application-context object: holds the cached Redis client
once set. -/
structure GState where
  redis : Option RedisClient
deriving DecidableEq, Repr

/-- Result of one get_redis call: the handle returned, the context state
afterwards, and whether this call constructed a new client. -/
structure GetRedisResult where
  client : RedisClient
  gOut : GState
  constructed : Bool
deriving DecidableEq, Repr

/-- Lines 25-40 of app.py: if g has no redis attribute, construct the
client and cache it on g; return the cached handle. -/
def get_redis (cfg : Config) (g : GState) : GetRedisResult :=
  match g.redis with
  | some c => { client := c, gOut := g, constructed := false }
  | none =>
    let c := mkRedisClient cfg
    { client := c, gOut := { redis := some c }, constructed := true }

/-- HTTP method of a request to the single route. -/
inductive Method where
  | GET
  | POST
deriving DecidableEq, Repr

/-- An incoming request: method, cookie jar, form body (first value wins on
lookup, as in a werkzeug MultiDict). -/
structure Request where
  method : Method
  cookies : List (String × String)
  form : List (String × String)
deriving DecidableEq, Repr

/-- request.cookies.get on a named cookie. -/
def Request.cookieGet (req : Request) (name : String) : Option String :=
  req.cookies.lookup name

/-- The arguments handed to render_template for index.html; the template
itself is an external pure view. -/
structure TemplateArgs where
  option_a : String
  option_b : String
  hostname : String
  vote : Option String
deriving DecidableEq, Repr

/-- The response the handler constructs: rendered template plus the cookies
set on it. -/
structure Response where
  template : TemplateArgs
  cookies : List (String × String)
deriving DecidableEq, Repr

/-- The two exceptions that can escape the handler body: the
BadRequestKeyError from request.form on a missing vote field, which Flask
turns into a 400, and a redis connection or timeout error from rpush,
which Flask turns into a 500. -/
inductive HandlerError where
  | missingVoteField
  | queueFailure
deriving DecidableEq, Repr

/-- HTTP status of each escaped exception as mapped by Flask. -/
def HandlerError.status : HandlerError → Nat
  | HandlerError.missingVoteField => 400
  | HandlerError.queueFailure => 500

/-- Status code of the overall outcome: 200 on a handler-built response. -/
def statusOf : Except HandlerError Response → Nat
  | Except.ok _ => 200
  | Except.error e => e.status

/-- Everything observable about one execution of the hello handler: the
context state afterwards, every rpush attempt (queue name and serialized
payload), the appends that actually took effect on the queue, and the
outcome. -/
structure HelloOutcome where
  gOut : GState
  attempts : List (String × String)
  enqueued : List (String × String)
  result : Except HandlerError Response
deriving Repr

/-- Lines 42-65 of app.py, the hello route handler.  r is the 64-bit draw
random.getrandbits(64) would return; pushFails says whether redis.rpush
raises (connection error or socket timeout).  Control flow follows the
source: resolve the voter id, then on POST call get_redis, read
request.form, serialize and rpush; finally build the response and set the
voter_id cookie.  An exception on the POST path skips everything after the
raising line, so no response is built there. -/
def hello (cfg : Config) (req : Request) (r : Nat) (pushFails : Bool) (g : GState) :
    HelloOutcome :=
  let voterId := resolveVoterId (req.cookieGet "voter_id") r
  match req.method with
  | Method.GET =>
    { gOut := g
      attempts := []
      enqueued := []
      result := Except.ok
        { template :=
            { option_a := cfg.option_a, option_b := cfg.option_b,
              hostname := cfg.hostname, vote := none }
          cookies := [("voter_id", voterId)] } }
  | Method.POST =>
    let gr := get_redis cfg g
    match req.form.lookup "vote" with
    | none =>
      { gOut := gr.gOut
        attempts := []
        enqueued := []
        result := Except.error HandlerError.missingVoteField }
    | some vote =>
      let data := voteData voterId vote
      if pushFails then
        { gOut := gr.gOut
          attempts := [("votes", data)]
          enqueued := []
          result := Except.error HandlerError.queueFailure }
      else
        { gOut := gr.gOut
          attempts := [("votes", data)]
          enqueued := [("votes", data)]
          result := Except.ok
            { template :=
                { option_a := cfg.option_a, option_b := cfg.option_b,
                  hostname := cfg.hostname, vote := some vote }
              cookies := [("voter_id", voterId)] } }

/-- Cookies of the outcome's response, none when an exception escaped. -/
def responseCookies : Except HandlerError Response → Option (List (String × String))
  | Except.ok resp => some resp.cookies
  | Except.error _ => none

/-! ## Fixtures and helper lemmas -/

/-- A concrete configuration, as produced by startup on an empty environment. -/
def cfgA : Config :=
  { REDIS_HOST := "redis", REDIS_PORT := 6379, REDIS_PASSWORD := none,
    REDIS_SSL := false, option_a := "Cats", option_b := "Dogs", hostname := "host1" }

/-- A fresh application context: no Redis client cached yet. -/
def gEmpty : GState := { redis := none }

/-- A concrete POST request: reused identity abc, vote a. -/
def reqPostA : Request :=
  { method := Method.POST, cookies := [("voter_id", "abc")], form := [("vote", "a")] }

/-- A concrete POST request with a vote value outside both option keys. -/
def reqPostBanana : Request :=
  { method := Method.POST, cookies := [("voter_id", "abc")], form := [("vote", "banana")] }

/-- A concrete POST request whose form body lacks the vote field. -/
def reqPostNoVote : Request :=
  { method := Method.POST, cookies := [("voter_id", "abc")], form := [] }

/-- A concrete GET request with a reused identity token. -/
def reqGetTok : Request :=
  { method := Method.GET, cookies := [("voter_id", "tok")], form := [] }

/-- A concrete GET request with no cookies at all. -/
def reqGetNoCookie : Request :=
  { method := Method.GET, cookies := [], form := [] }

/-- The response hello builds for the concrete GET request reqGetTok. -/
def respGetTok : Response :=
  { template :=
      { option_a := "Cats", option_b := "Dogs", hostname := "host1", vote := none }
    cookies := [("voter_id", "tok")] }

/-- A second configuration, differing from cfgA in labels, host and redis
parameters. -/
def cfgB : Config :=
  { REDIS_HOST := "cache.internal", REDIS_PORT := 6380, REDIS_PASSWORD := some "s3cret",
    REDIS_SSL := true, option_a := "Tabs", option_b := "Spaces", hostname := "host2" }

/-- A POST request like reqPostA but with extra cookies and form fields in
a different order. -/
def reqPostA2 : Request :=
  { method := Method.POST
    cookies := [("session", "zzz"), ("voter_id", "abc"), ("theme", "dark")]
    form := [("csrf", "123"), ("vote", "a"), ("extra", "junk")] }


lemma hexDigitsAux_length_le (k : Nat) :
    ∀ n acc, n < 16 ^ k → (hexDigitsAux n acc).length ≤ acc.length + k := by
  induction k with
  | zero =>
    intro n acc h
    have hn : n = 0 := by omega
    subst hn
    simp [hexDigitsAux]
  | succ k ih =>
    intro n acc h
    match n with
    | 0 => simp [hexDigitsAux]
    | m + 1 =>
      simp only [hexDigitsAux]
      have h16 : (m + 1) / 16 < 16 ^ k := by
        have hmul : m + 1 < 16 ^ k * 16 := by
          have : (16 : Nat) ^ (k + 1) = 16 ^ k * 16 := pow_succ 16 k
          omega
        exact (Nat.div_lt_iff_lt_mul (by norm_num)).mpr hmul
      have := ih ((m + 1) / 16) (hexDigitChar ((m + 1) % 16) :: acc) h16
      simp only [List.length_cons] at this
      omega

lemma hexDigitsAux_length_ge (n : Nat) :
    ∀ acc, 1 ≤ n → acc.length + 1 ≤ (hexDigitsAux n acc).length := by
  induction n using Nat.strong_induction_on with
  | _ n ih =>
    intro acc h
    obtain ⟨m, rfl⟩ : ∃ m, n = m + 1 := ⟨n - 1, by omega⟩
    simp only [hexDigitsAux]
    by_cases h0 : (m + 1) / 16 = 0
    · rw [h0]
      simp [hexDigitsAux]
    · have hlt : (m + 1) / 16 < m + 1 := Nat.div_lt_self (Nat.succ_pos m) (by norm_num)
      have := ih _ hlt (hexDigitChar ((m + 1) % 16) :: acc) (by omega)
      simp only [List.length_cons] at this
      omega

lemma hexDigits_length_le16 (r : Nat) (h : r < 2 ^ 64) : (hexDigits r).length ≤ 16 := by
  unfold hexDigits
  by_cases h0 : r = 0
  · simp [h0]
  · simp only [h0, if_false]
    have h16 : r < 16 ^ 16 := by
      have : (16 : Nat) ^ 16 = 2 ^ 64 := by norm_num
      omega
    simpa using hexDigitsAux_length_le 16 r [] h16

lemma hexDigits_len_one_of_lt16 (r : Nat) (h : r < 16) : (hexDigits r).length = 1 := by
  unfold hexDigits
  by_cases h0 : r = 0
  · simp [h0]
  · simp only [h0, if_false]
    obtain ⟨m, rfl⟩ : ∃ m, r = m + 1 := ⟨r - 1, by omega⟩
    simp only [hexDigitsAux]
    have hz : (m + 1) / 16 = 0 := Nat.div_eq_of_lt h
    rw [hz]
    simp [hexDigitsAux]

lemma hexDigits_len_ge2_of_ge16 (r : Nat) (h : 16 ≤ r) : 2 ≤ (hexDigits r).length := by
  unfold hexDigits
  have h0 : ¬ r = 0 := by omega
  simp only [h0, if_false]
  obtain ⟨m, rfl⟩ : ∃ m, r = m + 1 := ⟨r - 1, by omega⟩
  simp only [hexDigitsAux]
  have h1 : 1 ≤ (m + 1) / 16 := (Nat.one_le_div_iff (by norm_num)).mpr h
  have := hexDigitsAux_length_ge ((m + 1) / 16) [hexDigitChar ((m + 1) % 16)] h1
  simpa using this

lemma mintToken_eq (r : Nat) : mintToken r = String.mk (hexDigits r).dropLast := rfl

lemma mintToken_length (r : Nat) : (mintToken r).length = (hexDigits r).length - 1 := by
  rw [mintToken_eq]
  show ((hexDigits r).dropLast).length = (hexDigits r).length - 1
  rw [List.length_dropLast]

lemma mintToken_empty_iff (r : Nat) : mintToken r = "" ↔ r < 16 := by
  constructor
  · intro h
    by_contra hge
    push_neg at hge
    have h2 := hexDigits_len_ge2_of_ge16 r hge
    have hlen := congrArg String.length h
    rw [mintToken_length] at hlen
    simp at hlen
    omega
  · intro h
    have h1 := hexDigits_len_one_of_lt16 r h
    rw [mintToken_eq]
    have hnil : (hexDigits r).dropLast = [] := by
      have : ((hexDigits r).dropLast).length = 0 := by
        rw [List.length_dropLast]
        omega
      exact List.eq_nil_of_length_eq_zero this
    rw [hnil]

/-- The cookie list of any response the handler itself builds: the single
voter_id cookie holding the resolved identity. -/
lemma hello_ok_cookies (cfg : Config) (req : Request) (r : Nat) (pushFails : Bool)
    (g : GState) (resp : Response)
    (h : (hello cfg req r pushFails g).result = Except.ok resp) :
    resp.cookies = [("voter_id", resolveVoterId (req.cookieGet "voter_id") r)] := by
  obtain ⟨m, cs, fs⟩ := req
  cases m with
  | GET =>
    simp only [hello] at h
    cases h
    rfl
  | POST =>
    simp only [hello] at h
    cases hv : List.lookup "vote" fs with
    | none =>
      rw [hv] at h
      cases h
    | some v =>
      rw [hv] at h
      cases pushFails with
      | true => simp at h
      | false =>
        simp at h
        cases h
        rfl

/-- Reduce the hello handler on a POST request whose form carries a vote:
one rpush attempt on the queue named votes, payload json.dumps of the
voter_id and vote dict. -/
lemma hello_post_attempts (cfg : Config) (req : Request) (r : Nat) (pushFails : Bool)
    (g : GState) (v : String)
    (hm : req.method = Method.POST) (hv : req.form.lookup "vote" = some v) :
    (hello cfg req r pushFails g).attempts =
      [("votes", voteData (resolveVoterId (req.cookieGet "voter_id") r) v)] := by
  obtain ⟨m, cs, fs⟩ := req
  simp only [Request.method] at hm
  subst hm
  simp only [Request.form] at hv
  simp only [hello, Request.cookieGet, hv]
  cases pushFails <;> rfl

lemma pjs_quote (rest : List Char) : parseJString ('"' :: rest) = some ([], rest) := by
  simp [parseJString]

lemma pjs_esc_quote (rest : List Char) :
    parseJString ('\\' :: '"' :: rest) =
      (parseJString rest).map (fun p => ('"' :: p.1, p.2)) := by
  simp [parseJString, parseEscape]

lemma pjs_esc_n (rest : List Char) :
    parseJString ('\\' :: 'n' :: rest) =
      (parseJString rest).map (fun p => ('\n' :: p.1, p.2)) := by
  simp [parseJString, parseEscape]

lemma pjs_esc_backslash (rest : List Char) :
    parseJString ('\\' :: '\\' :: rest) =
      (parseJString rest).map (fun p => ('\\' :: p.1, p.2)) := by
  simp [parseJString, parseEscape]

lemma pjs_esc_r (rest : List Char) :
    parseJString ('\\' :: 'r' :: rest) =
      (parseJString rest).map (fun p => ('\r' :: p.1, p.2)) := by
  simp [parseJString, parseEscape]

lemma pjs_esc_t (rest : List Char) :
    parseJString ('\\' :: 't' :: rest) =
      (parseJString rest).map (fun p => ('\t' :: p.1, p.2)) := by
  simp [parseJString, parseEscape]

lemma pjs_esc_b (rest : List Char) :
    parseJString ('\\' :: 'b' :: rest) =
      (parseJString rest).map (fun p => ('\x08' :: p.1, p.2)) := by
  simp [parseJString, parseEscape]

lemma pjs_esc_f (rest : List Char) :
    parseJString ('\\' :: 'f' :: rest) =
      (parseJString rest).map (fun p => ('\x0c' :: p.1, p.2)) := by
  simp [parseJString, parseEscape]

lemma pjs_plain (c : Char) (rest : List Char) (h1 : ¬ c = '"') (h2 : ¬ c = '\\')
    (h3 : ¬ c.toNat < 0x20) :
    parseJString (c :: rest) = (parseJString rest).map (fun p => (c :: p.1, p.2)) := by
  simp only [parseJString]
  rw [if_neg h1, if_neg h2, if_neg h3]

lemma pjs_u_low (c1 c2 c3 c4 : Char) (tail : List Char) (n : Nat)
    (hc : combineHex4 c1 c2 c3 c4 = some n) (h : n < 0xd800) :
    parseJString ('\\' :: 'u' :: c1 :: c2 :: c3 :: c4 :: tail) =
      (parseJString tail).map (fun p => (Char.ofNat n :: p.1, p.2)) := by
  simp [parseJString, parseEscape, parseUnicode, hc, h]

lemma pjs_u_high (c1 c2 c3 c4 : Char) (tail : List Char) (n : Nat)
    (hc : combineHex4 c1 c2 c3 c4 = some n) (h : 0xe000 ≤ n) :
    parseJString ('\\' :: 'u' :: c1 :: c2 :: c3 :: c4 :: tail) =
      (parseJString tail).map (fun p => (Char.ofNat n :: p.1, p.2)) := by
  simp [parseJString, parseEscape, parseUnicode, hc]
  intro h2
  rw [if_neg (by omega), if_neg (by omega)]

lemma pjs_u_pair (c1 c2 c3 c4 d1 d2 d3 d4 : Char) (tail : List Char) (n m : Nat)
    (hcn : combineHex4 c1 c2 c3 c4 = some n) (hn : 0xd800 ≤ n ∧ n < 0xdc00)
    (hcm : combineHex4 d1 d2 d3 d4 = some m) (hm : 0xdc00 ≤ m ∧ m < 0xe000) :
    parseJString ('\\' :: 'u' :: c1 :: c2 :: c3 :: c4 :: '\\' :: 'u' :: d1 :: d2 :: d3 :: d4 :: tail) =
      (parseJString tail).map (fun p =>
        (Char.ofNat (0x10000 + (n - 0xd800) * 0x400 + (m - 0xdc00)) :: p.1, p.2)) := by
  simp [parseJString, parseEscape, parseUnicode, parseLowSurrogate, hcn, hcm, hm]
  rw [if_neg (by omega), if_pos (by omega)]

lemma hexVal?_hexDigitChar (d : Nat) (h : d < 16) : hexVal? (hexDigitChar d) = some d := by
  interval_cases d <;> decide

lemma combineHex4_hex4 (n : Nat) (h : n < 65536) :
    combineHex4 (hexDigitChar (n / 4096 % 16)) (hexDigitChar (n / 256 % 16))
      (hexDigitChar (n / 16 % 16)) (hexDigitChar (n % 16)) = some n := by
  have e1 := hexVal?_hexDigitChar (n / 4096 % 16) (Nat.mod_lt _ (by norm_num))
  have e2 := hexVal?_hexDigitChar (n / 256 % 16) (Nat.mod_lt _ (by norm_num))
  have e3 := hexVal?_hexDigitChar (n / 16 % 16) (Nat.mod_lt _ (by norm_num))
  have e4 := hexVal?_hexDigitChar (n % 16) (Nat.mod_lt _ (by norm_num))
  simp only [combineHex4, e1, e2, e3, e4, Option.some.injEq]
  omega

lemma char_valid_nat (c : Char) :
    c.toNat < 55296 ∨ 57343 < c.toNat ∧ c.toNat < 1114112 := c.valid

lemma parseJString_escapeList (s : List Char) (rest : List Char) :
    parseJString (escapeList s ++ '"' :: rest) = some (s, rest) := by
  induction s with
  | nil =>
    simpa [escapeList] using pjs_quote rest
  | cons c cs ih =>
    by_cases hq : c = '"'
    · subst hq
      have e1 : escapeList ('"' :: cs) ++ '"' :: rest =
          '\\' :: '"' :: (escapeList cs ++ '"' :: rest) := rfl
      rw [e1, pjs_esc_quote, ih]
      rfl
    by_cases hb : c = '\\'
    · subst hb
      have e1 : escapeList ('\\' :: cs) ++ '"' :: rest =
          '\\' :: '\\' :: (escapeList cs ++ '"' :: rest) := rfl
      rw [e1, pjs_esc_backslash, ih]
      rfl
    by_cases hn : c = '\n'
    · subst hn
      have e1 : escapeList ('\n' :: cs) ++ '"' :: rest =
          '\\' :: 'n' :: (escapeList cs ++ '"' :: rest) := rfl
      rw [e1, pjs_esc_n, ih]
      rfl
    by_cases hr : c = '\r'
    · subst hr
      have e1 : escapeList ('\r' :: cs) ++ '"' :: rest =
          '\\' :: 'r' :: (escapeList cs ++ '"' :: rest) := rfl
      rw [e1, pjs_esc_r, ih]
      rfl
    by_cases ht : c = '\t'
    · subst ht
      have e1 : escapeList ('\t' :: cs) ++ '"' :: rest =
          '\\' :: 't' :: (escapeList cs ++ '"' :: rest) := rfl
      rw [e1, pjs_esc_t, ih]
      rfl
    by_cases h08 : c = '\x08'
    · subst h08
      have e1 : escapeList ('\x08' :: cs) ++ '"' :: rest =
          '\\' :: 'b' :: (escapeList cs ++ '"' :: rest) := rfl
      rw [e1, pjs_esc_b, ih]
      rfl
    by_cases h0c : c = '\x0c'
    · subst h0c
      have e1 : escapeList ('\x0c' :: cs) ++ '"' :: rest =
          '\\' :: 'f' :: (escapeList cs ++ '"' :: rest) := rfl
      rw [e1, pjs_esc_f, ih]
      rfl
    by_cases hlt : c.toNat < 0x20
    · have E : escapeChar c = "\\u" ++ hex4 c.toNat := by
        unfold escapeChar
        rw [if_neg hq, if_neg hb, if_neg hn, if_neg hr, if_neg ht, if_neg h08, if_neg h0c,
          if_pos hlt]
      have e1 : escapeList (c :: cs) ++ '"' :: rest =
          '\\' :: 'u' :: hexDigitChar (c.toNat / 4096 % 16) :: hexDigitChar (c.toNat / 256 % 16) ::
            hexDigitChar (c.toNat / 16 % 16) :: hexDigitChar (c.toNat % 16) ::
            (escapeList cs ++ '"' :: rest) := by
        rw [show escapeList (c :: cs) = (escapeChar c).data ++ escapeList cs from rfl, E]
        rfl
      rw [e1, pjs_u_low _ _ _ _ _ _ (combineHex4_hex4 c.toNat (by omega)) (by omega), ih]
      simp [Char.ofNat_toNat]
    by_cases h7f : c.toNat < 0x7f
    · have E : escapeChar c = String.mk [c] := by
        unfold escapeChar
        rw [if_neg hq, if_neg hb, if_neg hn, if_neg hr, if_neg ht, if_neg h08, if_neg h0c,
          if_neg hlt, if_pos h7f]
      have e1 : escapeList (c :: cs) ++ '"' :: rest = c :: (escapeList cs ++ '"' :: rest) := by
        rw [show escapeList (c :: cs) = (escapeChar c).data ++ escapeList cs from rfl, E]
        rfl
      rw [e1, pjs_plain c _ hq hb hlt, ih]
      rfl
    by_cases hbmp : c.toNat < 0x10000
    · have E : escapeChar c = "\\u" ++ hex4 c.toNat := by
        unfold escapeChar
        rw [if_neg hq, if_neg hb, if_neg hn, if_neg hr, if_neg ht, if_neg h08, if_neg h0c,
          if_neg hlt, if_neg h7f, if_pos hbmp]
      have e1 : escapeList (c :: cs) ++ '"' :: rest =
          '\\' :: 'u' :: hexDigitChar (c.toNat / 4096 % 16) :: hexDigitChar (c.toNat / 256 % 16) ::
            hexDigitChar (c.toNat / 16 % 16) :: hexDigitChar (c.toNat % 16) ::
            (escapeList cs ++ '"' :: rest) := by
        rw [show escapeList (c :: cs) = (escapeChar c).data ++ escapeList cs from rfl, E]
        rfl
      rcases char_valid_nat c with hlo | hhi
      · rw [e1, pjs_u_low _ _ _ _ _ _ (combineHex4_hex4 c.toNat (by omega)) (by omega), ih]
        simp [Char.ofNat_toNat]
      · rw [e1, pjs_u_high _ _ _ _ _ _ (combineHex4_hex4 c.toNat (by omega)) (by omega), ih]
        simp [Char.ofNat_toNat]
    · have E : escapeChar c =
          "\\u" ++ hex4 (0xd800 + (c.toNat - 0x10000) / 0x400) ++
            "\\u" ++ hex4 (0xdc00 + (c.toNat - 0x10000) % 0x400) := by
        unfold escapeChar
        rw [if_neg hq, if_neg hb, if_neg hn, if_neg hr, if_neg ht, if_neg h08, if_neg h0c,
          if_neg hlt, if_neg h7f, if_neg hbmp]
      have hcv : c.toNat < 1114112 := by
        rcases char_valid_nat c with hlo | hhi
        · omega
        · omega
      have e1 : escapeList (c :: cs) ++ '"' :: rest =
          '\\' :: 'u' ::
            hexDigitChar ((0xd800 + (c.toNat - 0x10000) / 0x400) / 4096 % 16) ::
            hexDigitChar ((0xd800 + (c.toNat - 0x10000) / 0x400) / 256 % 16) ::
            hexDigitChar ((0xd800 + (c.toNat - 0x10000) / 0x400) / 16 % 16) ::
            hexDigitChar ((0xd800 + (c.toNat - 0x10000) / 0x400) % 16) ::
          '\\' :: 'u' ::
            hexDigitChar ((0xdc00 + (c.toNat - 0x10000) % 0x400) / 4096 % 16) ::
            hexDigitChar ((0xdc00 + (c.toNat - 0x10000) % 0x400) / 256 % 16) ::
            hexDigitChar ((0xdc00 + (c.toNat - 0x10000) % 0x400) / 16 % 16) ::
            hexDigitChar ((0xdc00 + (c.toNat - 0x10000) % 0x400) % 16) ::
            (escapeList cs ++ '"' :: rest) := by
        rw [show escapeList (c :: cs) = (escapeChar c).data ++ escapeList cs from rfl, E]
        rfl
      rw [e1, pjs_u_pair _ _ _ _ _ _ _ _ _ _ _
        (combineHex4_hex4 _ (by omega)) (by omega)
        (combineHex4_hex4 _ (by omega)) (by omega), ih]
      have harith : 0x10000 + ((0xd800 + (c.toNat - 0x10000) / 0x400) - 0xd800) * 0x400 +
          ((0xdc00 + (c.toNat - 0x10000) % 0x400) - 0xdc00) = c.toNat := by
        omega
      rw [harith, Char.ofNat_toNat]
      rfl

lemma voteData_data (vid v : String) :
    (voteData vid v).data =
      '\x7b' :: '"' :: (escapeList "voter_id".data ++ '"' :: ':' :: ' ' :: '"' ::
        (escapeList vid.data ++ '"' :: ',' :: ' ' :: '"' ::
          (escapeList "vote".data ++ '"' :: ':' :: ' ' :: '"' ::
            (escapeList v.data ++ ['"', '\x7d'])))) := by
  simp only [voteData, votePayload, Json.dumps, dumpsFields, quoteString, escapeString,
    String.data_append, List.append_assoc, List.cons_append, List.nil_append,
    show ("\x7b".data = ['\x7b']) from rfl, show ("\"".data = ['"']) from rfl,
    show ((": ").data = [':', ' ']) from rfl, show ((", ").data = [',', ' ']) from rfl,
    show ("\x7d".data = ['\x7d']) from rfl]

lemma parseVoteData_voteData (vid v : String) :
    parseVoteData (voteData vid v) = some (vid, v) := by
  simp only [parseVoteData, voteData_data, parseJString_escapeList]
  rfl

/-! ## Claims -/

/-- Claim C1: on every POST request carrying a vote form field, the handler
makes exactly one rpush call, to the queue named votes, and the payload is
json.dumps of a dict whose voter_id field is the resolved voter identity
and whose vote field is the submitted choice, both verbatim: field lookup
on the serialized object returns exactly those strings, and decoding the
payload bytes off the queue gives back exactly the resolved identity and
the submitted choice. -/
theorem accepted_post_single_append (cfg : Config) (req : Request) (r : Nat)
    (pushFails : Bool) (g : GState) (v : String)
    (hm : req.method = Method.POST) (hv : req.form.lookup "vote" = some v) :
    (hello cfg req r pushFails g).attempts =
      [("votes", voteData (resolveVoterId (req.cookieGet "voter_id") r) v)] ∧
    (hello cfg req r pushFails g).attempts.length = 1 ∧
    (votePayload (resolveVoterId (req.cookieGet "voter_id") r) v).getField "voter_id" =
      some (Json.str (resolveVoterId (req.cookieGet "voter_id") r)) ∧
    (votePayload (resolveVoterId (req.cookieGet "voter_id") r) v).getField "vote" =
      some (Json.str v) ∧
    parseVoteData (voteData (resolveVoterId (req.cookieGet "voter_id") r) v) =
      some (resolveVoterId (req.cookieGet "voter_id") r, v) := by
  refine ⟨hello_post_attempts cfg req r pushFails g v hm hv, ?_, rfl, rfl,
    parseVoteData_voteData (resolveVoterId (req.cookieGet "voter_id") r) v⟩
  rw [hello_post_attempts cfg req r pushFails g v hm hv]
  rfl

/-- Witness for C1 at a concrete request: voter_id cookie abc, vote a. -/
theorem accepted_post_single_append_witness :
    (hello cfgA reqPostA 7 false gEmpty).attempts = [("votes", voteData "abc" "a")] ∧
    parseVoteData (voteData "abc" "a") = some ("abc", "a") :=
  ⟨(accepted_post_single_append cfgA reqPostA 7 false gEmpty "a" rfl rfl).1,
    (accepted_post_single_append cfgA reqPostA 7 false gEmpty "a" rfl rfl).2.2.2.2⟩

/-- Claim C2: a POST request whose form body lacks the vote field raises
BadRequestKeyError before any rpush: no append attempt is made, nothing is
enqueued, and the outcome is the 400 client error. -/
theorem missing_vote_field_rejected (cfg : Config) (req : Request) (r : Nat)
    (pushFails : Bool) (g : GState)
    (hm : req.method = Method.POST) (hv : req.form.lookup "vote" = none) :
    (hello cfg req r pushFails g).attempts = [] ∧
    (hello cfg req r pushFails g).enqueued = [] ∧
    (hello cfg req r pushFails g).result = Except.error HandlerError.missingVoteField ∧
    statusOf (hello cfg req r pushFails g).result = 400 ∧
    400 ≤ statusOf (hello cfg req r pushFails g).result ∧
    statusOf (hello cfg req r pushFails g).result < 500 := by
  obtain ⟨m, cs, fs⟩ := req
  simp only [Request.method] at hm
  subst hm
  simp only [Request.form] at hv
  simp [hello, Request.cookieGet, hv, statusOf, HandlerError.status]

/-- Witness for C2 at a concrete request with an empty form body. -/
theorem missing_vote_field_rejected_witness :
    (hello cfgA reqPostNoVote 3 false gEmpty).attempts = [] ∧
    statusOf (hello cfgA reqPostNoVote 3 false gEmpty).result = 400 := by
  have h := missing_vote_field_rejected cfgA reqPostNoVote 3 false gEmpty rfl rfl
  exact ⟨h.1, h.2.2.2.1⟩

/-- Counterexample to claim C3: the handler performs no validation of the
vote value.  A POST with vote banana, which is neither configured option
key, is enqueued verbatim and the request succeeds with status 200 instead
of being rejected as a client error. -/
theorem unvalidated_vote_cex :
    ("banana" ≠ "a" ∧ "banana" ≠ "b") ∧
    (hello cfgA reqPostBanana 0 false gEmpty).enqueued =
      [("votes", voteData "abc" "banana")] ∧
    statusOf (hello cfgA reqPostBanana 0 false gEmpty).result = 200 := by
  refine ⟨⟨by decide, by decide⟩, rfl, rfl⟩

/-- Claim C3 amended: the handler never validates the submitted vote value;
any string, in particular one that is neither option key a nor b, is
serialized and enqueued verbatim and the request succeeds. -/
theorem any_vote_value_enqueued (cfg : Config) (req : Request) (r : Nat)
    (g : GState) (v : String)
    (hm : req.method = Method.POST) (hv : req.form.lookup "vote" = some v)
    (_hva : v ≠ "a") (_hvb : v ≠ "b") :
    (hello cfg req r false g).enqueued =
      [("votes", voteData (resolveVoterId (req.cookieGet "voter_id") r) v)] ∧
    statusOf (hello cfg req r false g).result = 200 := by
  obtain ⟨m, cs, fs⟩ := req
  simp only [Request.method] at hm
  subst hm
  simp only [Request.form] at hv
  simp only [hello, Request.cookieGet, hv, statusOf]
  exact ⟨rfl, rfl⟩

/-- Witness for the amended C3 at vote banana. -/
theorem any_vote_value_enqueued_witness :
    (hello cfgA reqPostBanana 5 false gEmpty).enqueued =
      [("votes", voteData "abc" "banana")] :=
  (any_vote_value_enqueued cfgA reqPostBanana 5 gEmpty "banana" rfl rfl
    (by decide) (by decide)).1

/-- Counterexample to claim C4: the resolved token is not echoed back on
every request.  A POST carrying the non-empty token abc whose rpush fails
ends in the framework 500 response, which attaches no voter_id cookie at
all — the token is resolved but never echoed.  (This input differs from
the C7 one: the vote field is present and it is the enqueue that fails.) -/
theorem token_not_echoed_on_error_cex :
    (reqPostA.cookieGet "voter_id" = some "abc" ∧ "abc" ≠ "") ∧
    (hello cfgA reqPostA 0 true gEmpty).result = Except.error HandlerError.queueFailure ∧
    responseCookies (hello cfgA reqPostA 0 true gEmpty).result = none := by
  refine ⟨⟨rfl, by decide⟩, rfl, rfl⟩

/-- Claim C4 amended: the identity resolver returns a present non-empty
voter_id cookie unchanged and mints a fresh token from the 64-bit draw
when the cookie is absent or empty; the resolved identity is echoed back
in the voter_id cookie on every response the handler builds (every GET
response and every POST response whose enqueue succeeds), while requests
that end in the 400/500 exception paths receive a framework response with
no cookie, so no echo happens there. -/
theorem identity_resolution (cfg : Config) (req : Request) (r : Nat)
    (pushFails : Bool) (g : GState) :
    (∀ t, req.cookieGet "voter_id" = some t → t ≠ "" →
      resolveVoterId (req.cookieGet "voter_id") r = t) ∧
    ((req.cookieGet "voter_id" = none ∨ req.cookieGet "voter_id" = some "") →
      resolveVoterId (req.cookieGet "voter_id") r = mintToken r) ∧
    (∀ resp, (hello cfg req r pushFails g).result = Except.ok resp →
      resp.cookies = [("voter_id", resolveVoterId (req.cookieGet "voter_id") r)]) := by
  refine ⟨?_, ?_, fun resp h => hello_ok_cookies cfg req r pushFails g resp h⟩
  · intro t ht hne
    rw [ht]
    simp [resolveVoterId, hne]
  · rintro (h | h) <;> rw [h] <;> simp [resolveVoterId]

/-- Witness for C4: a non-empty cookie tok is returned unchanged and echoed
on the GET response. -/
theorem identity_resolution_witness :
    resolveVoterId (reqGetTok.cookieGet "voter_id") 5 = "tok" ∧
    respGetTok.cookies = [("voter_id", resolveVoterId (reqGetTok.cookieGet "voter_id") 5)] := by
  have h := identity_resolution cfgA reqGetTok 5 false gEmpty
  exact ⟨h.1 "tok" rfl (by decide), h.2.2 respGetTok rfl⟩

/-- Counterexample to claim C5: on a request with no token, at the possible
64-bit draw 0, the minted token set on the response is the empty string:
it is neither non-empty nor 16 hexadecimal characters long.  (The slice in
hex(random.getrandbits(64))[2:-1] removes the final hex digit, a Python 2
leftover, and hex never zero-pads.) -/
theorem minted_token_not_16_hex_cex :
    (hello cfgA reqGetNoCookie 0 false gEmpty).result = Except.ok
      { template :=
          { option_a := "Cats", option_b := "Dogs", hostname := "host1", vote := none }
        cookies := [("voter_id", "")] } ∧
    mintToken 0 = "" ∧ (mintToken 0).length = 0 := by
  refine ⟨rfl, rfl, rfl⟩

/-- Claim C5 amended: for every 64-bit draw r, the minted token is the
lowercase hex digits of r with the final digit sliced off: its length is
one less than the number of hex digits of r, hence at most 15 (never 16),
and it is empty exactly when r < 16. -/
theorem minted_token_after_slice (r : Nat) (h : r < 2 ^ 64) :
    mintToken r = String.mk (hexDigits r).dropLast ∧
    (mintToken r).length = (hexDigits r).length - 1 ∧
    (mintToken r).length ≤ 15 ∧
    (mintToken r = "" ↔ r < 16) := by
  refine ⟨mintToken_eq r, mintToken_length r, ?_, mintToken_empty_iff r⟩
  rw [mintToken_length]
  have := hexDigits_length_le16 r h
  omega

/-- Witness for the amended C5 at the draw 2^63, whose 16 hex digits become
a 15-character token. -/
theorem minted_token_after_slice_witness :
    2 ^ 63 < 2 ^ 64 ∧ (mintToken (2 ^ 63)).length ≤ 15 :=
  ⟨by norm_num, (minted_token_after_slice (2 ^ 63) (by norm_num)).2.2.1⟩

/-- Claim C6: when rpush raises (connection error or the 5 second socket
timeout), the exception escapes the handler: the outcome is the 500 server
error, not success; nothing lands on the queue; and exactly one append
attempt was made, with no retry. -/
theorem queue_failure_propagated (cfg : Config) (req : Request) (r : Nat)
    (g : GState) (v : String)
    (hm : req.method = Method.POST) (hv : req.form.lookup "vote" = some v) :
    (hello cfg req r true g).result = Except.error HandlerError.queueFailure ∧
    statusOf (hello cfg req r true g).result = 500 ∧
    500 ≤ statusOf (hello cfg req r true g).result ∧
    statusOf (hello cfg req r true g).result < 600 ∧
    (hello cfg req r true g).attempts.length = 1 ∧
    (hello cfg req r true g).enqueued = [] := by
  obtain ⟨m, cs, fs⟩ := req
  simp only [Request.method] at hm
  subst hm
  simp only [Request.form] at hv
  simp [hello, Request.cookieGet, hv, statusOf, HandlerError.status]

/-- Witness for C6 at a concrete failing submission. -/
theorem queue_failure_propagated_witness :
    statusOf (hello cfgA reqPostA 7 true gEmpty).result = 500 ∧
    (hello cfgA reqPostA 7 true gEmpty).enqueued = [] := by
  have h := queue_failure_propagated cfgA reqPostA 7 gEmpty "a" rfl rfl
  exact ⟨h.2.1, h.2.2.2.2.2⟩

/-- Counterexample to claim C7: a POST request with a reused identity but a
missing vote field gets the 400 outcome, whose response is built by the
framework, not the handler, and carries no voter_id cookie at all — the
set-cookie side effect does not occur on every response. -/
theorem cookie_not_set_on_error_cex :
    responseCookies (hello cfgA reqPostNoVote 0 false gEmpty).result = none ∧
    statusOf (hello cfgA reqPostNoVote 0 false gEmpty).result = 400 := by
  refine ⟨rfl, rfl⟩

/-- Claim C7 amended: every response the handler itself constructs — every
GET response, and every POST response whose enqueue succeeds — carries the
resolved identity in the voter_id cookie, whether minted or reused; the
exception paths (missing vote field, queue failure) produce no handler
response and hence no cookie. -/
theorem cookie_on_every_handler_response (cfg : Config) (req : Request) (r : Nat)
    (pushFails : Bool) (g : GState) :
    (∀ resp, (hello cfg req r pushFails g).result = Except.ok resp →
      resp.cookies = [("voter_id", resolveVoterId (req.cookieGet "voter_id") r)]) ∧
    (req.method = Method.GET →
      responseCookies (hello cfg req r pushFails g).result =
        some [("voter_id", resolveVoterId (req.cookieGet "voter_id") r)]) ∧
    (∀ v, req.method = Method.POST → req.form.lookup "vote" = some v →
      responseCookies (hello cfg req r false g).result =
        some [("voter_id", resolveVoterId (req.cookieGet "voter_id") r)]) := by
  obtain ⟨m, cs, fs⟩ := req
  refine ⟨fun resp h => hello_ok_cookies cfg ⟨m, cs, fs⟩ r pushFails g resp h, ?_, ?_⟩
  · intro hm
    simp only [Request.method] at hm
    subst hm
    simp [hello, Request.cookieGet, responseCookies]
  · intro v hm hv
    simp only [Request.method] at hm
    subst hm
    simp only [Request.form] at hv
    simp [hello, Request.cookieGet, hv, responseCookies]

/-- Witness for the amended C7 on a concrete GET request with a fresh
identity: the response sets the minted token as the voter_id cookie. -/
theorem cookie_on_every_handler_response_witness :
    responseCookies (hello cfgA reqGetNoCookie 255 false gEmpty).result =
      some [("voter_id", mintToken 255)] := by
  have h := (cookie_on_every_handler_response cfgA reqGetNoCookie 255 false gEmpty).2.1 rfl
  simpa [resolveVoterId, Request.cookieGet, reqGetNoCookie] using h

/-- Claim C8: get_redis constructs the Redis client lazily on first use in
a context and caches it on g: starting from a fresh context the first call
constructs the client from the configured parameters, and a second call in
the same context returns the very same handle, leaves the context
unchanged, and constructs nothing; in general, any call on a context that
already holds a client returns it without constructing. -/
theorem queue_client_lazy_cached (cfg : Config) :
    (get_redis cfg gEmpty).constructed = true ∧
    (get_redis cfg gEmpty).client = mkRedisClient cfg ∧
    (get_redis cfg (get_redis cfg gEmpty).gOut).constructed = false ∧
    (get_redis cfg (get_redis cfg gEmpty).gOut).client = (get_redis cfg gEmpty).client ∧
    (get_redis cfg (get_redis cfg gEmpty).gOut).gOut = (get_redis cfg gEmpty).gOut ∧
    (∀ g c, g.redis = some c →
      get_redis cfg g = { client := c, gOut := g, constructed := false }) := by
  refine ⟨rfl, rfl, rfl, rfl, rfl, ?_⟩
  intro g c h
  simp [get_redis, h]

/-- Witness for C8: a context already holding the client built from cfgA
returns it untouched. -/
theorem queue_client_lazy_cached_witness :
    get_redis cfgA { redis := some (mkRedisClient cfgA) } =
      { client := mkRedisClient cfgA, gOut := { redis := some (mkRedisClient cfgA) },
        constructed := false } :=
  (queue_client_lazy_cached cfgA).2.2.2.2.2 { redis := some (mkRedisClient cfgA) }
    (mkRedisClient cfgA) rfl

/-- Claim C9: if the REDIS_PORT environment value does not parse as a
Python int, module import raises ValueError: startup fails and the process
never begins serving requests. -/
theorem malformed_port_fatal (env : List (String × String)) (hostname : String)
    (h : pyInt? (getenvD env "REDIS_PORT" "6379") = none) :
    startup env hostname = Except.error "ValueError: invalid literal for int" ∧
    servesRequests env hostname = false := by
  constructor
  · unfold startup
    rw [h]
  · unfold servesRequests startup
    rw [h]

/-- Witness for C9 at the concrete environment REDIS_PORT=redis.example.com. -/
theorem malformed_port_fatal_witness :
    servesRequests [("REDIS_PORT", "redis.example.com")] "host1" = false :=
  (malformed_port_fatal [("REDIS_PORT", "redis.example.com")] "host1" (by decide)).2

/-- Claim C10: two POST submissions that carry the same non-empty voter_id
cookie and the same vote form value produce byte-for-byte identical
serialized payloads and identical append-attempt lists, whatever their
other cookies, other form fields, option labels, host identifier, redis
parameters, random draws, context states, or rpush outcomes. -/
theorem payload_depends_only_on_identity_and_vote
    (cfg1 cfg2 : Config) (req1 req2 : Request) (r1 r2 : Nat) (p1 p2 : Bool)
    (g1 g2 : GState) (t v : String) (ht : t ≠ "")
    (hc1 : req1.cookieGet "voter_id" = some t) (hc2 : req2.cookieGet "voter_id" = some t)
    (hm1 : req1.method = Method.POST) (hm2 : req2.method = Method.POST)
    (hv1 : req1.form.lookup "vote" = some v) (hv2 : req2.form.lookup "vote" = some v) :
    (hello cfg1 req1 r1 p1 g1).attempts = (hello cfg2 req2 r2 p2 g2).attempts ∧
    (hello cfg1 req1 r1 p1 g1).attempts = [("votes", voteData t v)] := by
  have e1 : (hello cfg1 req1 r1 p1 g1).attempts = [("votes", voteData t v)] := by
    rw [hello_post_attempts cfg1 req1 r1 p1 g1 v hm1 hv1, hc1]
    simp [resolveVoterId, ht]
  have e2 : (hello cfg2 req2 r2 p2 g2).attempts = [("votes", voteData t v)] := by
    rw [hello_post_attempts cfg2 req2 r2 p2 g2 v hm2 hv2, hc2]
    simp [resolveVoterId, ht]
  exact ⟨by rw [e1, e2], e1⟩

/-- Witness for C10: the two concrete requests differ in configuration,
cookies, form fields, draw and context, yet enqueue identical bytes. -/
theorem payload_depends_only_on_identity_and_vote_witness :
    (hello cfgA reqPostA 7 false gEmpty).attempts =
      (hello cfgB reqPostA2 99 false { redis := some (mkRedisClient cfgB) }).attempts :=
  (payload_depends_only_on_identity_and_vote cfgA cfgB reqPostA reqPostA2 7 99
    false false gEmpty { redis := some (mkRedisClient cfgB) } "abc" "a"
    (by decide) rfl rfl rfl rfl rfl rfl).1
